import Mathlib

/-!
Shallow embedding of `examples/pdf_service/test-api.py`: the async job
lifecycle (`test_async_generation`, lines 135-210), the load runner
(`test_load`, lines 213-261), and the CLI entry point (`main`, lines
288-318).  Remote HTTP responses are supplied by explicit environments;
`none` models a raised `requests` exception (caught by the enclosing
`try`/`except`).
-/

namespace TestApi

/-- The `status` field of the job-status body (test-api.py line 177):
one of `queued`, `processing`, `completed`, `failed`. -/
inductive JobStatus
| queued
| processing
| completed
| failed
deriving DecidableEq, Repr

/-- One HTTP response to a status fetch (`GET /api/v1/jobs/\x7bid\x7d`):
the HTTP status code; when the code is 200 the parsed `status` field and
the optional `error.message` field of the JSON body. -/
structure StatusResponse where
  code : Nat
  status : JobStatus
  errMsg : Option String
deriving DecidableEq, Repr

/-- Environment of one run of `test_async_generation`: the service's
response to the job-creation POST (`none` = transport exception, otherwise
the HTTP code), to the `attempt`-th status fetch (1-indexed), and to the
download GET. -/
structure AsyncEnv where
  createResp : Option Nat
  fetchResp : Nat → Option StatusResponse
  downloadResp : Option Nat

/-- How the polling loop of `test_async_generation` (lines 162-188) exits. -/
inductive PollExit
| fetchException
| statusCheckFailed (code : Nat)
| jobFailed (msg : String)
| reachedCompleted
| timedOut
deriving DecidableEq, Repr

/-- `max_attempts = 30` (test-api.py line 162). -/
def max_attempts : Nat := 30

/-- The polling loop body (test-api.py lines 163-184): starting at
`attempt`, with `r` loop iterations remaining, fetch the job status each
iteration; a non-200 code returns an error, `completed` breaks out,
`failed` returns the service error message, `queued`/`processing`
continues.  Falling off the end of the loop with a non-`completed` last
status is the timed-out exit (lines 186-188).  The second component counts
status fetches performed. -/
def pollAux (f : Nat → Option StatusResponse) : Nat → Nat → PollExit × Nat
  | _, 0 => (PollExit.timedOut, 0)
  | attempt, r + 1 =>
    match f attempt with
    | none => (PollExit.fetchException, 1)
    | some resp =>
      if resp.code ≠ 200 then (PollExit.statusCheckFailed resp.code, 1)
      else
        match resp.status with
        | JobStatus.completed => (PollExit.reachedCompleted, 1)
        | JobStatus.failed =>
            (PollExit.jobFailed (resp.errMsg.getD "Unknown error"), 1)
        | _ =>
            let rest := pollAux f (attempt + 1) r
            (rest.1, rest.2 + 1)

/-- Terminal outcome of one run of `test_async_generation`.  The Python
function returns only `True`/`False`, but each constructor corresponds to
a distinct exit path with its own distinct `[ERROR]` line. -/
inductive AsyncOutcome
| createException
| createFailed (code : Nat)
| fetchException
| statusCheckFailed (code : Nat)
| jobFailed (msg : String)
| timedOut
| downloadException
| downloadFailed (code : Nat)
| success
deriving DecidableEq, Repr

/-- The boolean value `test_async_generation` returns: `True` exactly on
the success path (line 203). -/
def AsyncOutcome.isSuccess : AsyncOutcome → Bool
  | AsyncOutcome.success => true
  | _ => false

/-- Result of one run of `test_async_generation`: the outcome plus the
number of status-fetch calls and of download calls issued. -/
structure AsyncResult where
  outcome : AsyncOutcome
  fetchCalls : Nat
  downloadCalls : Nat
deriving DecidableEq, Repr

/-- `test_async_generation` (test-api.py lines 135-210): create the job
(only HTTP 202 proceeds), run the bounded polling loop, and on
`completed` download the artifact (success iff HTTP 200). -/
def test_async_generation (env : AsyncEnv) : AsyncResult :=
  match env.createResp with
  | none => ⟨AsyncOutcome.createException, 0, 0⟩
  | some code =>
    if code ≠ 202 then ⟨AsyncOutcome.createFailed code, 0, 0⟩
    else
      match pollAux env.fetchResp 1 max_attempts with
      | (PollExit.reachedCompleted, n) =>
        match env.downloadResp with
        | none => ⟨AsyncOutcome.downloadException, n, 1⟩
        | some dcode =>
          if dcode = 200 then ⟨AsyncOutcome.success, n, 1⟩
          else ⟨AsyncOutcome.downloadFailed dcode, n, 1⟩
      | (PollExit.fetchException, n) => ⟨AsyncOutcome.fetchException, n, 0⟩
      | (PollExit.statusCheckFailed c, n) => ⟨AsyncOutcome.statusCheckFailed c, n, 0⟩
      | (PollExit.jobFailed m, n) => ⟨AsyncOutcome.jobFailed m, n, 0⟩
      | (PollExit.timedOut, n) => ⟨AsyncOutcome.timedOut, n, 0⟩

/-- `true` iff the `attempt`-th status fetch keeps the polling loop going:
an HTTP 200 response whose status is `queued` or `processing`. -/
def continuesAt (f : Nat → Option StatusResponse) (j : Nat) : Bool :=
  match f j with
  | none => false
  | some resp =>
      decide (resp.code = 200) &&
        (decide (resp.status = JobStatus.queued) ||
          decide (resp.status = JobStatus.processing))

/-- Environment of one run of `test_sync_generation` (test-api.py lines
103-132): the response to the generation POST, `none` modelling a raised
exception.  Success iff the HTTP code is 200. -/
structure SyncEnv where
  postResp : Option Nat
deriving DecidableEq, Repr

/-- `test_sync_generation`: `True` exactly when the POST returns HTTP 200
(lines 121-126); any other code or an exception returns `False`. -/
def test_sync_generation (env : SyncEnv) : Bool :=
  match env.postResp with
  | none => false
  | some code => code == 200

/-- Environment of one load run: the mode flag and, per sequence index,
the remote responses seen by that lifecycle. -/
structure LoadEnv where
  useAsync : Bool
  asyncEnv : Nat → AsyncEnv
  syncEnv : Nat → SyncEnv

/-- `generate_one` (test-api.py lines 222-227): run the async or the sync
lifecycle for index `i` according to `use_async`, returning its boolean
outcome. -/
def generate_one (env : LoadEnv) (i : Nat) : Bool :=
  if env.useAsync then ((test_async_generation (env.asyncEnv i)).outcome).isSuccess
  else test_sync_generation (env.syncEnv i)

/-- What `future.result()` (or the direct `generate_one(i)` call) delivers
for one task: its boolean return value, or a raised exception. -/
inductive FutureResult
| value (b : Bool)
| raised
deriving DecidableEq, Repr

/-- `true` iff the task outcome takes the `success += 1` branch
(test-api.py lines 234-235 / 243-244); `False` and a raised exception
both take a `failed += 1` branch. -/
def isSuccessResult : FutureResult → Bool
  | FutureResult.value true => true
  | _ => false

/-- One iteration of the counting loop of `test_load` (lines 232-239 /
241-248): increment `success` or `failed` according to the outcome. -/
def tallyStep (acc : Nat × Nat) (r : FutureResult) : Nat × Nat :=
  if isSuccessResult r then (acc.1 + 1, acc.2) else (acc.1, acc.2 + 1)

/-- The counting loop of `test_load`: fold `tallyStep` over the task
outcomes in completion order, starting from `success = failed = 0`. -/
def tally (rs : List FutureResult) : Nat × Nat :=
  rs.foldl tallyStep (0, 0)

/-- The order in which `test_load` consumes task outcomes: with
`parallel > 1` the `as_completed` order (some permutation of `1..count`,
line 232), otherwise the sequential loop order `1, 2, ..., count`
(line 241, `range(1, count + 1)`). -/
def processOrder (count parallel : Nat) (order : List Nat) : List Nat :=
  if parallel > 1 then order else List.range' 1 count

/-- The throughput printed by `test_load` (line 251):
`count / duration if duration > 0 else 0`. -/
def rateOf (count : Nat) (duration : ℚ) : ℚ :=
  if duration > 0 then (count : ℚ) / duration else 0

/-- The figures `test_load` reports (lines 250-259). -/
structure LoadReport where
  total : Nat
  success : Nat
  failed : Nat
  duration : ℚ
  rate : ℚ
deriving Repr

/-- `test_load` (test-api.py lines 213-261): consume the `count` task
outcomes in `processOrder`, tallying success/failure, and report the
totals together with the throughput.  `res i` is the outcome of task `i`;
`order` is the completion order used when `parallel > 1`; `duration` the
elapsed wall-clock time. -/
def test_load (count parallel : Nat) (res : Nat → FutureResult)
    (order : List Nat) (duration : ℚ) : LoadReport :=
  let t := tally ((processOrder count parallel order).map res)
  ⟨count, t.1, t.2, duration, rateOf count duration⟩

/-- `test_load` with each task outcome produced by `generate_one` (which
never raises: both lifecycle functions catch all exceptions). -/
def test_load_run (env : LoadEnv) (count parallel : Nat)
    (order : List Nat) (duration : ℚ) : LoadReport :=
  test_load count parallel (fun i => FutureResult.value (generate_one env i))
    order duration

/-- State of the worker pool created at test-api.py line 230: tasks not
yet started, tasks currently executing, tasks finished. -/
structure PoolState where
  pending : List Nat
  running : List Nat
  done : List Nat
deriving DecidableEq, Repr

/-- Semantics of `ThreadPoolExecutor(max_workers=maxWorkers)` with the
`count` submitted `generate_one` tasks (test-api.py lines 230-231): a
pending task starts only when fewer than `maxWorkers` tasks are
executing; a running task may finish at any time.  No other transitions
exist, so pending tasks wait for a free worker slot. -/
inductive PoolStep (maxWorkers : Nat) : PoolState → PoolState → Prop
| start (i : Nat) (rest running finished : List Nat) :
    running.length < maxWorkers →
    PoolStep maxWorkers ⟨i :: rest, running, finished⟩ ⟨rest, i :: running, finished⟩
| finish (i : Nat) (pending r1 r2 finished : List Nat) :
    PoolStep maxWorkers ⟨pending, r1 ++ i :: r2, finished⟩ ⟨pending, r1 ++ r2, i :: finished⟩

/-- Initial pool state: tasks `1..count` submitted (line 231), none yet
running. -/
def poolInit (count : Nat) : PoolState := ⟨List.range' 1 count, [], []⟩

/-- The pool states reachable during a load run with `count` tasks and a
pool of `maxWorkers` workers. -/
def PoolReachable (maxWorkers count : Nat) (s : PoolState) : Prop :=
  Relation.ReflTransGen (PoolStep maxWorkers) (poolInit count) s

/-- The parsed command-line arguments (test-api.py lines 289-297).
`load` is `none` when `--load` is absent, otherwise the given integer
count. -/
structure Args where
  health : Bool
  sync : Bool
  asyncTest : Bool
  load : Option Int
  parallel : Int
  useAsync : Bool
deriving DecidableEq, Repr

/-- Outcomes of the three test functions were they invoked (the
environment `main` runs in). -/
structure World where
  healthOk : Bool
  syncOk : Bool
  asyncOk : Bool
deriving DecidableEq, Repr

/-- `run_all_tests` (lines 264-285): health, then sync, then async, each
short-circuiting to `False` on failure. -/
def run_all_tests (w : World) : Bool :=
  w.healthOk && (w.syncOk && w.asyncOk)

/-- Python truthiness of `args.load` as used at lines 300 and 316:
`None` and `0` are falsy, every other integer (negative included) is
truthy. -/
def loadTruthy : Option Int → Bool
  | none => false
  | some n => !(n == 0)

/-- `sys.exit(0 if success else 1)`. -/
def exitCode (ok : Bool) : Nat := if ok then 0 else 1

/-- `main` (test-api.py lines 288-318) reduced to its exit status: when
no mode is requested (all flags falsy), run all tests and exit by their
result; otherwise the first matching branch exits — `--health`, `--sync`,
`--async` by their test's result, `--load` always with status 0
(line 318). -/
def mainExit (args : Args) (w : World) : Nat :=
  if !(args.health || args.sync || args.asyncTest || loadTruthy args.load) then
    exitCode (run_all_tests w)
  else if args.health then exitCode w.healthOk
  else if args.sync then exitCode w.syncOk
  else if args.asyncTest then exitCode w.asyncOk
  else if loadTruthy args.load then 0
  else 0

/-! Concrete environments used by the witness theorems. -/

/-- A status fetch that always answers HTTP 200 / `processing`. -/
def fetchAlwaysProcessing : Nat → Option StatusResponse :=
  fun _ => some ⟨200, JobStatus.processing, none⟩

/-- Async environment whose job never leaves `processing`. -/
def envTimeout : AsyncEnv :=
  ⟨some 202, fetchAlwaysProcessing, some 200⟩

/-- Async environment whose first status fetch reports `failed`. -/
def envFailFirst : AsyncEnv :=
  ⟨some 202, fun _ => some ⟨200, JobStatus.failed, some "boom"⟩, some 200⟩

/-- Async environment whose first status fetch reports `completed` but
whose download answers HTTP 500. -/
def envBadDownload : AsyncEnv :=
  ⟨some 202, fun _ => some ⟨200, JobStatus.completed, none⟩, some 500⟩

/-- Async environment that completes on the first fetch and downloads
successfully. -/
def envComplete : AsyncEnv :=
  ⟨some 202, fun _ => some ⟨200, JobStatus.completed, none⟩, some 200⟩

/-- Sync-mode load environment in which every lifecycle succeeds. -/
def loadEnvAllOk : LoadEnv :=
  ⟨false, fun _ => envComplete, fun _ => ⟨some 200⟩⟩

/-- Arguments `--load 0`: the `--load` flag is present with count 0. -/
def argsLoadZero : Args := ⟨false, false, false, some 0, 1, false⟩

/-- Arguments `--load 5` with no other mode flag. -/
def argsLoadFive : Args := ⟨false, false, false, some 5, 1, false⟩

/-- A world in which every test function fails. -/
def worldAllFail : World := ⟨false, false, false⟩

/-- The poll exit produced by a 200 status fetch whose status is terminal
(`completed` or `failed`). -/
def terminalExit (resp : StatusResponse) : PollExit :=
  match resp.status with
  | JobStatus.completed => PollExit.reachedCompleted
  | JobStatus.failed => PollExit.jobFailed (resp.errMsg.getD "Unknown error")
  | _ => PollExit.timedOut

/-! Helper lemmas. -/

theorem tally_foldl (rs : List FutureResult) : ∀ acc : Nat × Nat,
    rs.foldl tallyStep acc =
      (acc.1 + rs.countP isSuccessResult,
        acc.2 + rs.countP (fun r => !(isSuccessResult r))) := by
  induction rs with
  | nil => intro acc; simp
  | cons r rs ih =>
    intro acc
    simp only [List.foldl_cons, ih, List.countP_cons, tallyStep]
    by_cases h : isSuccessResult r = true <;>
      simp [h, Prod.ext_iff] <;> omega

theorem tally_spec (rs : List FutureResult) :
    tally rs = (rs.countP isSuccessResult,
      rs.countP (fun r => !(isSuccessResult r))) := by
  simpa using tally_foldl rs (0, 0)

theorem tally_sum (rs : List FutureResult) :
    (tally rs).1 + (tally rs).2 = rs.length := by
  rw [tally_spec]
  have h := List.length_eq_countP_add_countP isSuccessResult rs
  simp at h
  omega

theorem processOrder_length (count parallel : Nat) (order : List Nat)
    (h : order.Perm (List.range' 1 count)) :
    (processOrder count parallel order).length = count := by
  unfold processOrder
  split
  · simpa using h.length_eq
  · simp

theorem processOrder_perm (count parallel : Nat) (order : List Nat)
    (h : order.Perm (List.range' 1 count)) :
    (processOrder count parallel order).Perm (List.range' 1 count) := by
  unfold processOrder
  split
  · exact h
  · exact List.Perm.refl _

theorem processOrder_one (count : Nat) (order : List Nat) :
    processOrder count 1 order = List.range' 1 count := by
  simp [processOrder]

theorem test_load_counts (count parallel : Nat) (res : Nat → FutureResult)
    (order : List Nat) (duration : ℚ)
    (h : (processOrder count parallel order).Perm (List.range' 1 count)) :
    (test_load count parallel res order duration).success +
      (test_load count parallel res order duration).failed = count := by
  have hsum := tally_sum ((processOrder count parallel order).map res)
  simp only [test_load]
  rw [hsum, List.length_map, h.length_eq, List.length_range']

theorem test_load_success_eq (count parallel : Nat) (res : Nat → FutureResult)
    (order : List Nat) (duration : ℚ)
    (h : (processOrder count parallel order).Perm (List.range' 1 count)) :
    (test_load count parallel res order duration).success =
      (List.range' 1 count).countP (fun i => isSuccessResult (res i)) := by
  simp only [test_load, tally_spec]
  rw [List.countP_map]
  exact h.countP_eq _

theorem test_load_failed_eq (count parallel : Nat) (res : Nat → FutureResult)
    (order : List Nat) (duration : ℚ)
    (h : (processOrder count parallel order).Perm (List.range' 1 count)) :
    (test_load count parallel res order duration).failed =
      (List.range' 1 count).countP (fun i => !(isSuccessResult (res i))) := by
  simp only [test_load, tally_spec]
  rw [List.countP_map]
  exact h.countP_eq _

theorem pollAux_count_le (f : Nat → Option StatusResponse) :
    ∀ a r, (pollAux f a r).2 ≤ r := by
  intro a r
  induction r generalizing a with
  | zero => simp [pollAux]
  | succ r ih =>
    simp only [pollAux]
    cases hf : f a with
    | none => simp
    | some resp =>
      have h1 := ih (a + 1)
      by_cases hc : resp.code = 200 <;>
        cases hs : resp.status <;> simp [hc, hs] <;> omega

theorem pollAux_timeout (f : Nat → Option StatusResponse) :
    ∀ r a, (∀ j ∈ List.range' a r, continuesAt f j = true) →
      pollAux f a r = (PollExit.timedOut, r) := by
  intro r
  induction r with
  | zero => intro a _; rfl
  | succ r ih =>
    intro a h
    rw [List.range'_succ] at h
    have ha := h a (List.mem_cons_self a _)
    cases hf : f a with
    | none => simp [continuesAt, hf] at ha
    | some resp =>
      simp only [continuesAt, hf, Bool.and_eq_true, Bool.or_eq_true,
        decide_eq_true_eq] at ha
      have hrec := ih (a + 1) (fun j hj => h j (List.mem_cons_of_mem _ hj))
      simp only [pollAux, hf]
      rcases ha.2 with hs | hs <;> simp [ha.1, hs, hrec]

theorem pollAux_halt (f : Nat → Option StatusResponse) (resp : StatusResponse) :
    ∀ k a r, k < r →
      (∀ j ∈ List.range' a k, continuesAt f j = true) →
      f (a + k) = some resp → resp.code = 200 →
      (resp.status = JobStatus.completed ∨ resp.status = JobStatus.failed) →
      pollAux f a r = (terminalExit resp, k + 1) := by
  intro k
  induction k with
  | zero =>
    intro a r hr _ hf hcode hstat
    obtain ⟨r2, rfl⟩ : ∃ r2, r = r2 + 1 := ⟨r - 1, by omega⟩
    rw [Nat.add_zero] at hf
    simp only [pollAux, hf]
    rcases hstat with hs | hs <;> simp [hcode, hs, terminalExit]
  | succ k ih =>
    intro a r hr h hf hcode hstat
    obtain ⟨r2, rfl⟩ : ∃ r2, r = r2 + 1 := ⟨r - 1, by omega⟩
    rw [List.range'_succ] at h
    have ha := h a (List.mem_cons_self a _)
    cases hfa : f a with
    | none => simp [continuesAt, hfa] at ha
    | some c =>
      simp only [continuesAt, hfa, Bool.and_eq_true, Bool.or_eq_true,
        decide_eq_true_eq] at ha
      have hf2 : f (a + 1 + k) = some resp := by
        rw [show a + 1 + k = a + (k + 1) by omega]
        exact hf
      have hrec := ih (a + 1) r2 (by omega)
        (fun j hj => h j (List.mem_cons_of_mem _ hj)) hf2 hcode hstat
      simp only [pollAux, hfa]
      rcases ha.2 with hs | hs <;> simp [ha.1, hs, hrec]

theorem test_async_fetchCalls_le (env : AsyncEnv) :
    (test_async_generation env).fetchCalls ≤ max_attempts := by
  unfold test_async_generation
  cases hc : env.createResp with
  | none => simp [max_attempts]
  | some code =>
    by_cases h202 : code = 202
    · have hb := pollAux_count_le env.fetchResp 1 max_attempts
      rcases hp : pollAux env.fetchResp 1 max_attempts with ⟨e, n⟩
      rw [hp] at hb
      cases e <;> cases hd : env.downloadResp <;>
        simp [h202, hp, hd] <;> first
          | exact hb
          | (split <;> simp <;> exact hb)
    · simp [h202, max_attempts]

/-! Claim theorems. -/

/-- Claim C1: for every load run of count N (sequential or concurrent,
any per-task outcomes including raised exceptions), the reported success
count plus the reported failure count equals N — every one of the N task
outcomes, consumed once each in completion order, contributes exactly one
success-or-failure increment. -/
theorem C1_success_plus_failure_eq_count (count parallel : Nat)
    (res : Nat → FutureResult) (order : List Nat) (duration : ℚ)
    (horder : order.Perm (List.range' 1 count)) :
    (test_load count parallel res order duration).success +
      (test_load count parallel res order duration).failed = count :=
  test_load_counts count parallel res order duration
    (processOrder_perm count parallel order horder)

/-- Witness for C1: a concurrent run of 3 tasks (one of which raises)
reports success + failed = 3. -/
theorem C1_success_plus_failure_eq_count_witness :
    ([2, 1, 3] : List Nat).Perm (List.range' 1 3) ∧
      (test_load 3 2
          (fun i => if i == 2 then FutureResult.raised else FutureResult.value true)
          [2, 1, 3] 1).success +
        (test_load 3 2
          (fun i => if i == 2 then FutureResult.raised else FutureResult.value true)
          [2, 1, 3] 1).failed = 3 :=
  ⟨by decide, C1_success_plus_failure_eq_count 3 2
    (fun i => if i == 2 then FutureResult.raised else FutureResult.value true)
    [2, 1, 3] 1 (by decide)⟩

/-- Claim C2: the poller performs at most 30 status fetches; a fetch
returning `completed` or `failed` at attempt k+1 (after k continuing
fetches) halts polling with exactly k+1 fetches performed; a job still
`queued`/`processing` through all 30 attempts ends as the (failing)
timed-out outcome rather than polling forever. -/
theorem C2_poll_bounded_and_halts (env : AsyncEnv) (k : Nat)
    (resp : StatusResponse)
    (hk : k < max_attempts)
    (hcont : ∀ j ∈ List.range' 1 k, continuesAt env.fetchResp j = true)
    (hterm : env.fetchResp (1 + k) = some resp)
    (hcode : resp.code = 200)
    (hstat : resp.status = JobStatus.completed ∨ resp.status = JobStatus.failed) :
    (∀ env2 : AsyncEnv, (test_async_generation env2).fetchCalls ≤ max_attempts) ∧
    k + 1 ≤ max_attempts ∧
    pollAux env.fetchResp 1 max_attempts = (terminalExit resp, k + 1) ∧
    (∀ env2 : AsyncEnv,
      (∀ j ∈ List.range' 1 max_attempts, continuesAt env2.fetchResp j = true) →
      env2.createResp = some 202 →
      (test_async_generation env2).outcome = AsyncOutcome.timedOut ∧
      ((test_async_generation env2).outcome).isSuccess = false) := by
  refine ⟨fun env2 => test_async_fetchCalls_le env2, by omega,
    pollAux_halt env.fetchResp resp k 1 max_attempts hk hcont hterm hcode hstat,
    fun env2 hcont2 hcreate2 => ?_⟩
  have hp := pollAux_timeout env2.fetchResp max_attempts 1 hcont2
  constructor <;>
    simp [test_async_generation, hcreate2, hp, AsyncOutcome.isSuccess]

/-- Witness for C2: a job that completes on the very first fetch. -/
theorem C2_poll_bounded_and_halts_witness :
    (0 : Nat) < max_attempts ∧
      ((∀ env2 : AsyncEnv,
          (test_async_generation env2).fetchCalls ≤ max_attempts) ∧
        0 + 1 ≤ max_attempts ∧
        pollAux envComplete.fetchResp 1 max_attempts =
          (terminalExit ⟨200, JobStatus.completed, none⟩, 0 + 1) ∧
        (∀ env2 : AsyncEnv,
          (∀ j ∈ List.range' 1 max_attempts, continuesAt env2.fetchResp j = true) →
          env2.createResp = some 202 →
          (test_async_generation env2).outcome = AsyncOutcome.timedOut ∧
          ((test_async_generation env2).outcome).isSuccess = false)) :=
  ⟨by decide, C2_poll_bounded_and_halts envComplete 0 ⟨200, JobStatus.completed, none⟩
    (by decide) (by decide) rfl rfl (Or.inl rfl)⟩

/-- Claim C3: with a worker pool of `maxWorkers` workers
(`ThreadPoolExecutor(max_workers=parallel)`, test-api.py line 230), no
reachable state of a load run has more than `maxWorkers` tasks running
simultaneously: a pending task starts only when a worker slot is free. -/
theorem C3_at_most_maxWorkers_running (maxWorkers count : Nat) (s : PoolState)
    (hW : 1 ≤ maxWorkers) (hreach : PoolReachable maxWorkers count s) :
    s.running.length ≤ maxWorkers := by
  induction hreach with
  | refl => simp [poolInit]
  | tail _ step ih =>
    cases step with
    | start i rest running finished hlt => simpa using hlt
    | finish i pending r1 r2 finished =>
      simp only [List.length_append, List.length_cons] at ih ⊢
      omega

/-- Witness for C3: the initial state of a 3-task run with 2 workers. -/
theorem C3_at_most_maxWorkers_running_witness :
    1 ≤ 2 ∧ (poolInit 3).running.length ≤ 2 :=
  ⟨by decide,
    C3_at_most_maxWorkers_running 2 3 (poolInit 3) (by decide)
      Relation.ReflTransGen.refl⟩

/-- Claim C4: a lifecycle that exhausts the 30-attempt bound without a
terminal status is recorded as the timed-out outcome, a lifecycle whose
fetch reports `failed` as the job-failed outcome, and the two recorded
outcomes are distinct for every service error message. -/
theorem C4_timeout_recorded_distinct_from_jobFailed (env1 env2 : AsyncEnv)
    (resp : StatusResponse)
    (h1create : env1.createResp = some 202)
    (h1cont : ∀ j ∈ List.range' 1 max_attempts, continuesAt env1.fetchResp j = true)
    (h2create : env2.createResp = some 202)
    (h2first : env2.fetchResp 1 = some resp)
    (h2code : resp.code = 200)
    (h2stat : resp.status = JobStatus.failed) :
    (test_async_generation env1).outcome = AsyncOutcome.timedOut ∧
    (test_async_generation env2).outcome =
      AsyncOutcome.jobFailed (resp.errMsg.getD "Unknown error") ∧
    (∀ m : String, AsyncOutcome.timedOut ≠ AsyncOutcome.jobFailed m) ∧
    ((test_async_generation env1).outcome).isSuccess = false ∧
    ((test_async_generation env2).outcome).isSuccess = false := by
  have hp1 := pollAux_timeout env1.fetchResp max_attempts 1 h1cont
  have hp2 := pollAux_halt env2.fetchResp resp 0 1 max_attempts
    (by simp [max_attempts]) (by simp) (by simpa using h2first) h2code
    (Or.inr h2stat)
  refine ⟨?_, ?_, ?_, ?_, ?_⟩ <;>
    simp [test_async_generation, h1create, h2create, hp1, hp2,
      terminalExit, h2stat, AsyncOutcome.isSuccess]

/-- Witness for C4: a job stuck in `processing` versus a job reported
`failed` with message "boom". -/
theorem C4_timeout_recorded_distinct_from_jobFailed_witness :
    (∀ j ∈ List.range' 1 max_attempts, continuesAt envTimeout.fetchResp j = true) ∧
      ((test_async_generation envTimeout).outcome = AsyncOutcome.timedOut ∧
        (test_async_generation envFailFirst).outcome =
          AsyncOutcome.jobFailed ((some "boom").getD "Unknown error") ∧
        (∀ m : String, AsyncOutcome.timedOut ≠ AsyncOutcome.jobFailed m) ∧
        ((test_async_generation envTimeout).outcome).isSuccess = false ∧
        ((test_async_generation envFailFirst).outcome).isSuccess = false) :=
  ⟨by decide, C4_timeout_recorded_distinct_from_jobFailed envTimeout envFailFirst
    ⟨200, JobStatus.failed, some "boom"⟩ rfl (by decide) rfl rfl rfl rfl⟩

/-- Claim C5 as stated is false: the value a lifecycle task delivers to
the counting loop is the bare boolean returned by `generate_one` — it
carries no sequence index, no per-lifecycle elapsed duration and no error
description.  Tasks 1 and 2 of a run where every lifecycle succeeds
deliver literally identical values although their indices differ. -/
theorem C5_counterexample_result_carries_no_index :
    generate_one loadEnvAllOk 1 = generate_one loadEnvAllOk 2 ∧
      (1 : Nat) ≠ 2 ∧ generate_one loadEnvAllOk 1 = true := by
  decide

/-- Claim C5 amended: every lifecycle task produces exactly one boolean
outcome (associated to its sequence index by the dispatch map), and the
aggregation consumes each task's outcome exactly once: the reported
success count is the number of indices in 1..count whose outcome is
`True`, and the failure count the number whose outcome is `False` or a
raised exception. -/
theorem C5_each_outcome_counted_once (count parallel : Nat)
    (res : Nat → FutureResult) (order : List Nat) (duration : ℚ)
    (horder : order.Perm (List.range' 1 count)) :
    (test_load count parallel res order duration).success =
      (List.range' 1 count).countP (fun i => isSuccessResult (res i)) ∧
    (test_load count parallel res order duration).failed =
      (List.range' 1 count).countP (fun i => !(isSuccessResult (res i))) :=
  ⟨test_load_success_eq count parallel res order duration
      (processOrder_perm count parallel order horder),
    test_load_failed_eq count parallel res order duration
      (processOrder_perm count parallel order horder)⟩

/-- Witness for the amended C5: 3 tasks, task 2 fails, others succeed. -/
theorem C5_each_outcome_counted_once_witness :
    ([3, 1, 2] : List Nat).Perm (List.range' 1 3) ∧
      ((test_load 3 2
          (fun i => FutureResult.value (i != 2)) [3, 1, 2] 1).success =
        (List.range' 1 3).countP
          (fun i => isSuccessResult (FutureResult.value (i != 2))) ∧
      (test_load 3 2
          (fun i => FutureResult.value (i != 2)) [3, 1, 2] 1).failed =
        (List.range' 1 3).countP
          (fun i => !(isSuccessResult (FutureResult.value (i != 2))))) :=
  ⟨by decide, C5_each_outcome_counted_once 3 2
    (fun i => FutureResult.value (i != 2)) [3, 1, 2] 1 (by decide)⟩

/-- Claim C6: a job whose first status fetch reports `failed` terminates
as a failure after exactly one status fetch and zero download calls. -/
theorem C6_failed_first_fetch_no_download (env : AsyncEnv)
    (resp : StatusResponse)
    (hcreate : env.createResp = some 202)
    (hfirst : env.fetchResp 1 = some resp)
    (hcode : resp.code = 200)
    (hstat : resp.status = JobStatus.failed) :
    test_async_generation env =
      ⟨AsyncOutcome.jobFailed (resp.errMsg.getD "Unknown error"), 1, 0⟩ ∧
    ((test_async_generation env).outcome).isSuccess = false := by
  have hp := pollAux_halt env.fetchResp resp 0 1 max_attempts
    (by simp [max_attempts]) (by simp) (by simpa using hfirst) hcode
    (Or.inr hstat)
  constructor <;>
    simp [test_async_generation, hcreate, hp, terminalExit, hstat,
      AsyncOutcome.isSuccess]

/-- Witness for C6: the job whose first fetch reports `failed`. -/
theorem C6_failed_first_fetch_no_download_witness :
    envFailFirst.createResp = some 202 ∧
      (test_async_generation envFailFirst =
        ⟨AsyncOutcome.jobFailed ((some "boom").getD "Unknown error"), 1, 0⟩ ∧
      ((test_async_generation envFailFirst).outcome).isSuccess = false) :=
  ⟨rfl, C6_failed_first_fetch_no_download envFailFirst
    ⟨200, JobStatus.failed, some "boom"⟩ rfl rfl rfl rfl⟩

/-- Claim C7: when polling reaches `completed` but the download GET
returns a non-200 code, the lifecycle is recorded as a failure (with the
one download call made), never as a success. -/
theorem C7_bad_download_recorded_failure (env : AsyncEnv) (n dcode : Nat)
    (hcreate : env.createResp = some 202)
    (hpoll : pollAux env.fetchResp 1 max_attempts = (PollExit.reachedCompleted, n))
    (hdl : env.downloadResp = some dcode)
    (hbad : dcode ≠ 200) :
    (test_async_generation env).outcome = AsyncOutcome.downloadFailed dcode ∧
    ((test_async_generation env).outcome).isSuccess = false ∧
    (test_async_generation env).downloadCalls = 1 := by
  refine ⟨?_, ?_, ?_⟩ <;>
    simp [test_async_generation, hcreate, hpoll, hdl, hbad,
      AsyncOutcome.isSuccess]

/-- Witness for C7: completed on the first fetch, download answers 500. -/
theorem C7_bad_download_recorded_failure_witness :
    pollAux envBadDownload.fetchResp 1 max_attempts =
        (PollExit.reachedCompleted, 1) ∧
      ((test_async_generation envBadDownload).outcome =
          AsyncOutcome.downloadFailed 500 ∧
        ((test_async_generation envBadDownload).outcome).isSuccess = false ∧
        (test_async_generation envBadDownload).downloadCalls = 1) :=
  ⟨by decide, C7_bad_download_recorded_failure envBadDownload 1 500 rfl
    (by decide) rfl (by decide)⟩

/-- Claim C8: with concurrency limit 1 the load run is fully sequential —
the indices are consumed in order 1, 2, ..., count — and for the same
fixed per-task outcomes its success and failure counts equal those of the
concurrent dispatch path (any completion order). -/
theorem C8_limit_one_sequential_same_counts (count parallel : Nat)
    (res : Nat → FutureResult) (orderSeq orderConc : List Nat) (duration : ℚ)
    (hpar : parallel > 1)
    (hconc : orderConc.Perm (List.range' 1 count)) :
    processOrder count 1 orderSeq = List.range' 1 count ∧
    (test_load count 1 res orderSeq duration).success =
      (test_load count parallel res orderConc duration).success ∧
    (test_load count 1 res orderSeq duration).failed =
      (test_load count parallel res orderConc duration).failed := by
  have hseq : (processOrder count 1 orderSeq).Perm (List.range' 1 count) := by
    rw [processOrder_one]
  have hcp := processOrder_perm count parallel orderConc hconc
  refine ⟨processOrder_one count orderSeq, ?_, ?_⟩
  · rw [test_load_success_eq count 1 res orderSeq duration hseq,
      test_load_success_eq count parallel res orderConc duration hcp]
  · rw [test_load_failed_eq count 1 res orderSeq duration hseq,
      test_load_failed_eq count parallel res orderConc duration hcp]

/-- Witness for C8: 3 tasks, task 2 fails, concurrent order [3, 1, 2]. -/
theorem C8_limit_one_sequential_same_counts_witness :
    (2 : Nat) > 1 ∧
      (processOrder 3 1 [] = List.range' 1 3 ∧
        (test_load 3 1 (fun i => FutureResult.value (i != 2)) [] 1).success =
          (test_load 3 2 (fun i => FutureResult.value (i != 2)) [3, 1, 2] 1).success ∧
        (test_load 3 1 (fun i => FutureResult.value (i != 2)) [] 1).failed =
          (test_load 3 2 (fun i => FutureResult.value (i != 2)) [3, 1, 2] 1).failed) :=
  ⟨by decide, C8_limit_one_sequential_same_counts 3 2
    (fun i => FutureResult.value (i != 2)) [] [3, 1, 2] 1 (by decide) (by decide)⟩

/-- Claim C9: a load run with count = 50 accounts exactly 50 results
(success + failed = 50, total = 50) and reports throughput 50 / duration;
in general the reported rate is count / duration whenever the duration is
positive. -/
theorem C9_fifty_results_and_throughput (res : Nat → FutureResult)
    (order : List Nat) (duration : ℚ)
    (hord : order.Perm (List.range' 1 50)) (hd : 0 < duration) :
    (test_load 50 5 res order duration).total = 50 ∧
    (test_load 50 5 res order duration).success +
      (test_load 50 5 res order duration).failed = 50 ∧
    (test_load 50 5 res order duration).rate = 50 / duration ∧
    (∀ (count parallel : Nat) (res2 : Nat → FutureResult)
        (order2 : List Nat) (d2 : ℚ), 0 < d2 →
      (test_load count parallel res2 order2 d2).rate = (count : ℚ) / d2) := by
  refine ⟨rfl,
    test_load_counts 50 5 res order duration (processOrder_perm 50 5 order hord),
    ?_, ?_⟩
  · simp [test_load, rateOf, hd]
  · intro count parallel res2 order2 d2 hd2
    simp [test_load, rateOf, hd2]

/-- Witness for C9: all 50 lifecycles succeed, duration 2 seconds. -/
theorem C9_fifty_results_and_throughput_witness :
    (List.range' 1 50).Perm (List.range' 1 50) ∧
      ((test_load 50 5 (fun _ => FutureResult.value true)
          (List.range' 1 50) 2).total = 50 ∧
        (test_load 50 5 (fun _ => FutureResult.value true)
            (List.range' 1 50) 2).success +
          (test_load 50 5 (fun _ => FutureResult.value true)
            (List.range' 1 50) 2).failed = 50 ∧
        (test_load 50 5 (fun _ => FutureResult.value true)
          (List.range' 1 50) 2).rate = 50 / 2 ∧
        (∀ (count parallel : Nat) (res2 : Nat → FutureResult)
            (order2 : List Nat) (d2 : ℚ), 0 < d2 →
          (test_load count parallel res2 order2 d2).rate = (count : ℚ) / d2)) :=
  ⟨List.Perm.refl _, C9_fifty_results_and_throughput
    (fun _ => FutureResult.value true) (List.range' 1 50) 2
    (List.Perm.refl _) (by norm_num)⟩

/-- Claim C10 as stated is false at `--load 0`: the integer 0 is falsy in
Python, so `main` falls through to the run-all branch (test-api.py line
300) and exits 1 when the tests fail, although the program was invoked
with the `--load` flag. -/
theorem C10_counterexample_load_zero :
    argsLoadZero.load = some 0 ∧ mainExit argsLoadZero worldAllFail = 1 := by
  decide

/-- Claim C10 amended: when `--load` is given a nonzero count and no
earlier mode flag (`--health`, `--sync`, `--async`) is present, the
process exits 0 regardless of how many lifecycles failed; the health,
sync, async and run-all modes exit 1 on failure and 0 on success.
(`--load 0` instead falls through to run-all mode.) -/
theorem C10_load_mode_exits_zero (args : Args) (w : World) (n : Int)
    (hl : args.load = some n) (hn : n ≠ 0)
    (hh : args.health = false) (hs : args.sync = false)
    (ha : args.asyncTest = false) :
    mainExit args w = 0 ∧
    (∀ (a2 : Args) (w2 : World), a2.health = true →
      mainExit a2 w2 = exitCode w2.healthOk) ∧
    (∀ (a2 : Args) (w2 : World), a2.health = false → a2.sync = true →
      mainExit a2 w2 = exitCode w2.syncOk) ∧
    (∀ (a2 : Args) (w2 : World), a2.health = false → a2.sync = false →
      a2.asyncTest = true → mainExit a2 w2 = exitCode w2.asyncOk) ∧
    (∀ (w2 : World) (p u : _), mainExit ⟨false, false, false, none, p, u⟩ w2 =
      exitCode (run_all_tests w2)) := by
  have hnb : (n == 0) = false := by simpa using hn
  refine ⟨?_, ?_, ?_, ?_, ?_⟩
  · simp [mainExit, loadTruthy, hl, hh, hs, ha, hnb]
  · intro a2 w2 h2
    simp [mainExit, h2]
  · intro a2 w2 h2 h3
    simp [mainExit, h2, h3]
  · intro a2 w2 h2 h3 h4
    simp [mainExit, h2, h3, h4]
  · intro w2 p u
    simp [mainExit, loadTruthy]

/-- Witness for the amended C10: `--load 5` with every test failing still
exits 0. -/
theorem C10_load_mode_exits_zero_witness :
    argsLoadFive.load = some 5 ∧
      (mainExit argsLoadFive worldAllFail = 0 ∧
        (∀ (a2 : Args) (w2 : World), a2.health = true →
          mainExit a2 w2 = exitCode w2.healthOk) ∧
        (∀ (a2 : Args) (w2 : World), a2.health = false → a2.sync = true →
          mainExit a2 w2 = exitCode w2.syncOk) ∧
        (∀ (a2 : Args) (w2 : World), a2.health = false → a2.sync = false →
          a2.asyncTest = true → mainExit a2 w2 = exitCode w2.asyncOk) ∧
        (∀ (w2 : World) (p u : _), mainExit ⟨false, false, false, none, p, u⟩ w2 =
          exitCode (run_all_tests w2))) :=
  ⟨rfl, C10_load_mode_exits_zero argsLoadFive worldAllFail 5 rfl (by decide)
    rfl rfl rfl⟩
end TestApi
